import Mathlib

/-!
# Verification of the RadPro serial polling core

A shallow embedding, in Lean 4, of the core logic of the `radpro-ha`
integration:

* `custom_components/radpro/radpro_io.py` — line-based serial transport
  (`RadProIO.query` response parsing, `RadProIO.close`);
* `custom_components/radpro/coordinator.py` — device-identity parsing
  (`DeviceInfo`), the poll cycle (`RadProCoordinator._async_update_data`),
  the rolling 5-second averaging window, and the derived metrics.

Python floats and monotonic-clock timestamps are modelled as rationals
(`ℚ`); Python's unbounded `int` as `ℤ`; fallible reads as an explicit
`ReadResult` oracle (payload / no value / transport error); exceptions as
`Except String`.  Mutation of coordinator attributes becomes explicit
state passing on a `Coordinator` record.  Python string operations are
modelled by structurally recursive functions over the character list of
the string, so that every definition evaluates on concrete inputs.
-/

/-- Python `str.strip()` on a character list: drop whitespace from both
ends. -/
def stripChars (cs : List Char) : List Char :=
  ((cs.dropWhile Char.isWhitespace).reverse.dropWhile Char.isWhitespace).reverse

/-- Python `str.strip()`. -/
def pyStrip (s : String) : String :=
  ⟨stripChars s.toList⟩

/-- Split a character list at every character satisfying `p`, keeping
empty pieces (the behaviour of Python `str.split(sep)` for a one-character
separator, with `p` testing for that separator). -/
def splitPred (p : Char → Bool) : List Char → List (List Char)
  | [] => [[]]
  | c :: rest =>
    if p c then [] :: splitPred p rest
    else
      match splitPred p rest with
      | [] => [[c]]
      | g :: gs => (c :: g) :: gs

/-- Python `s.split(sep)` for a one-character separator `sep`. -/
def pySplit (s : String) (sep : Char) : List String :=
  (splitPred (fun c => c == sep) s.toList).map (fun cs => (⟨cs⟩ : String))

/-- Python `str.split()` with no separator: split on whitespace runs,
dropping empty tokens. -/
def pySplitWs (s : String) : List String :=
  ((splitPred Char.isWhitespace s.toList).map (fun cs => (⟨cs⟩ : String))).filter
    (fun t => t.isEmpty = false)

/-- Does the first list lead the second (Python `str.startswith`)? -/
def startsWithChars : List Char → List Char → Bool
  | [], _ => true
  | _ :: _, [] => false
  | a :: as, b :: bs => a == b && startsWithChars as bs

/-- Python `s[n:]`. -/
def pyDropStr (s : String) (n : ℕ) : String :=
  ⟨s.toList.drop n⟩

/-- Round-half-to-even on rationals, modelling Python 3's `round` tie
behaviour. -/
def rndHalfEven (x : ℚ) : ℤ :=
  let f := ⌊x⌋
  let frac := x - f
  if frac < 1 / 2 then f
  else if 1 / 2 < frac then f + 1
  else if f % 2 = 0 then f else f + 1

/-- Python `round(x, n)`: round to `n` decimal places (ties to even). -/
def roundTo (x : ℚ) (n : ℕ) : ℚ :=
  (rndHalfEven (x * 10 ^ n) : ℚ) / 10 ^ n

/-- Value of a list of decimal digit characters. -/
def digitsVal (cs : List Char) : ℕ :=
  cs.foldl (fun a c => a * 10 + (c.toNat - 48)) 0

/-- All characters are decimal digits. -/
def allDigits (cs : List Char) : Bool :=
  cs.all Char.isDigit

/-- Python `int(s)` on a plain decimal string: surrounding whitespace
allowed, optional sign, then a nonempty digit run; anything else raises
`ValueError`, modelled as `none`.  (Underscored and non-decimal literals
do not occur on this wire protocol and are modelled as failures.) -/
def pyInt (s : String) : Option ℤ :=
  match stripChars s.toList with
  | '-' :: rest =>
    if rest ≠ [] ∧ allDigits rest then some (-(digitsVal rest : ℤ)) else none
  | '+' :: rest =>
    if rest ≠ [] ∧ allDigits rest then some (digitsVal rest : ℤ) else none
  | cs =>
    if cs ≠ [] ∧ allDigits cs then some (digitsVal cs : ℤ) else none

/-- Magnitude part of a Python float literal: `digits`, `digits.`,
`.digits` or `digits.digits` (at least one digit overall). -/
def pyFloatMag (body : List Char) : Option ℚ :=
  match splitPred (fun c => c == '.') body with
  | [ip] =>
    if ip ≠ [] ∧ allDigits ip then some (digitsVal ip : ℚ) else none
  | [ip, fp] =>
    if (ip ≠ [] ∨ fp ≠ []) ∧ allDigits ip ∧ allDigits fp then
      some ((digitsVal ip : ℚ) + (digitsVal fp : ℚ) / ((10 ^ fp.length : ℕ) : ℚ))
    else none
  | _ => none

/-- Python `float(s)` on a plain decimal string: surrounding whitespace,
optional sign, decimal magnitude.  (Exponents, `inf` and `nan` do not
occur on this wire protocol and are modelled as failures.) -/
def pyFloat (s : String) : Option ℚ :=
  match stripChars s.toList with
  | '-' :: rest => (pyFloatMag rest).map (fun q => -q)
  | '+' :: rest => pyFloatMag rest
  | cs => pyFloatMag cs

/-- Response parsing of `RadProIO.query` (radpro_io.py lines 62-72): the
argument is the decoded `readline` result; an empty read yields `none`
("no response"); otherwise the line is stripped, a line starting with the
marker `OK` yields the remainder after dropping three characters (the
two-character marker plus one separator) and stripping; any other line
yields `none`. -/
def queryParse (response_bytes : String) : Option String :=
  if response_bytes.isEmpty then none
  else
    let response := pyStrip response_bytes
    if startsWithChars ['O', 'K'] response.toList then
      some (pyStrip (pyDropStr response 3))
    else none

/-- The underlying serial handle (pyserial `Serial`): only its open flag
matters to the logic under verification. -/
structure SerialConn where
  is_open : Bool
deriving Repr, DecidableEq

/-- State of the transport object (class `RadProIO` in radpro_io.py):
endpoint parameters plus the optionally-held serial connection. -/
structure RadProSerial where
  port : String
  baudrate : ℕ
  serial : Option SerialConn
deriving Repr, DecidableEq

/-- `RadProIO.close` (radpro_io.py lines 34-37): if a connection is held
and open, close it (the returned flag records whether the underlying
`serial.close()` was invoked); in every case drop the handle. -/
def RadProSerial.close (io : RadProSerial) : RadProSerial × Bool :=
  if (match io.serial with | some c => c.is_open | none => false) then
    ({ io with serial := none }, true)
  else
    ({ io with serial := none }, false)

/-- `DeviceInfo` (coordinator.py lines 19-50): identity fields parsed
from the `deviceId` response plus battery voltage. -/
structure DeviceInfo where
  hardware_id : Option String
  software_id : Option String
  device_id : Option String
  battery_voltage : Option ℚ
deriving Repr, DecidableEq

/-- `DeviceInfo.model` (coordinator.py lines 31-37): part of
`hardware_id` before `(`, stripped; a `None` or empty (falsy)
`hardware_id` gives `None`. -/
def DeviceInfo.model (d : DeviceInfo) : Option String :=
  match d.hardware_id with
  | some h => if h.isEmpty then none else some (pyStrip ((pySplit h '(').headD ""))
  | none => none

/-- The token scan of `DeviceInfo.sw_version` (coordinator.py lines
45-49): the first token containing `/` contributes its part before `/`;
otherwise the first token whose leading character is a digit. -/
def firstVersionToken : List String → Option String
  | [] => none
  | p :: rest =>
    if p.toList.contains '/' then some ((pySplit p '/').headD "")
    else if (p.toList.headD ' ').isDigit then some p
    else firstVersionToken rest

/-- `DeviceInfo.sw_version` (coordinator.py lines 39-50): scan the
whitespace tokens of `software_id`; if `software_id` is falsy or no token
matches, fall back to `software_id` itself. -/
def DeviceInfo.sw_version (d : DeviceInfo) : Option String :=
  match d.software_id with
  | none => none
  | some sw =>
    if sw.isEmpty then some sw
    else
      match firstVersionToken (pySplitWs sw) with
      | some v => some v
      | none => some sw

/-- Identity update from a `deviceId` payload
(`RadProCoordinator._read_device_info`, coordinator.py lines 107-115):
an empty payload is falsy and updates nothing; `≥ 3` semicolon fields set
hardware_id/software_id/device_id from fields 0-2 stripped; exactly one
field sets device_id to the whole stripped payload; two fields update
nothing. -/
def applyDeviceId (d : DeviceInfo) (raw : String) : DeviceInfo :=
  if raw.isEmpty then d
  else
    let parts := pySplit raw ';'
    if 3 ≤ parts.length then
      { d with
        hardware_id := some (pyStrip (parts.getD 0 ""))
        software_id := some (pyStrip (parts.getD 1 ""))
        device_id := some (pyStrip (parts.getD 2 "")) }
    else if parts.length = 1 then
      { d with device_id := some (pyStrip raw) }
    else d

/-- Outcome of one `RadProIO.get` call as seen by the coordinator:
a payload (`ok`), no value (`empty`, the `None` return), or a raised
`RadProIOError` (`fail`, carrying the message). -/
inductive ReadResult where
  | ok (s : String)
  | empty
  | fail (e : String)
deriving Repr, DecidableEq

/-- Did the read raise a transport error? -/
def ReadResult.isFail : ReadResult → Bool
  | .fail _ => true
  | _ => false

/-- One entry of the sliding window `RadProCoordinator._samples`
(coordinator.py line 83): `(timestamp, delta_pulses, delta_time)`. -/
structure Sample where
  ts : ℚ
  dp : ℤ
  dt : ℚ
deriving Repr, DecidableEq

/-- The `data` dict returned by one successful poll cycle
(coordinator.py lines 167-208): the MetricSnapshot.  Optional fields are
absent exactly when the cycle could not compute them. -/
structure Snapshot where
  pulse_count : ℤ
  cps : Option ℚ
  cpm : Option ℚ
  usvh : Option ℚ
deriving Repr, DecidableEq

/-- Mutable state of `RadProCoordinator` (coordinator.py lines 61-88):
device identity, previous pulse count and timestamp, sensitivity, the
sliding window, the refresh intervals (in cycles) and the cycle
counter. -/
structure Coordinator where
  device_info : DeviceInfo
  prev_pulsecount : Option ℤ
  prev_ts : Option ℚ
  sensitivity : Option ℚ
  samples : List Sample
  sensitivity_interval : ℕ
  deviceinfo_interval : ℕ
  update_counter : ℕ
deriving Repr, DecidableEq

/-- `RadProCoordinator.__init__` (coordinator.py lines 61-88): fresh
state with the refresh periods converted to cycle counts by integer
division, floored at 1. -/
def mkCoordinator (interval_s sensitivity_interval_s deviceinfo_interval_s : ℕ) :
    Coordinator :=
  { device_info := ⟨none, none, none, none⟩
    prev_pulsecount := none
    prev_ts := none
    sensitivity := none
    samples := []
    sensitivity_interval := max 1 (sensitivity_interval_s / max 1 interval_s)
    deviceinfo_interval := max 1 (deviceinfo_interval_s / max 1 interval_s)
    update_counter := 0 }

/-- The oracle for one poll cycle: what each `io.get` would return if
reached, and the value of the monotonic clock `hass.loop.time()`. -/
structure CycleInput where
  sens : ReadResult
  devId : ReadResult
  batt : ReadResult
  pulse : ReadResult
  now : ℚ
deriving Repr, DecidableEq

/-- `RadProCoordinator._read_sensitivity` (coordinator.py lines 132-139):
a transport error propagates (second component); a falsy or non-numeric
payload leaves the prior value (warning logged); a numeric payload
replaces it. -/
def readSensitivity (st : Coordinator) (r : ReadResult) :
    Coordinator × Option String :=
  match r with
  | .fail e => (st, some e)
  | .empty => (st, none)
  | .ok s =>
    if s.isEmpty then (st, none)
    else
      match pyFloat s with
      | some v => ({ st with sensitivity := some v }, none)
      | none => (st, none)

/-- `RadProCoordinator._read_device_info` (coordinator.py lines 100-130):
the `deviceId` read updates identity via `applyDeviceId` (a transport
error propagates first); then the `deviceBatteryVoltage` read updates
battery voltage on a numeric payload, keeps the prior value on a falsy
or non-numeric one, and propagates a transport error — after the
identity update already happened. -/
def readDeviceInfo (st : Coordinator) (devId batt : ReadResult) :
    Coordinator × Option String :=
  match devId with
  | .fail e => (st, some e)
  | other =>
    let st1 :=
      match other with
      | .ok raw => { st with device_info := applyDeviceId st.device_info raw }
      | _ => st
    match batt with
    | .fail e => (st1, some e)
    | .empty => (st1, none)
    | .ok bv =>
      if bv.isEmpty then (st1, none)
      else
        match pyFloat bv with
        | some v =>
          ({ st1 with device_info := { st1.device_info with battery_voltage := some v } },
            none)
        | none => (st1, none)

/-- Is the sensitivity refresh due this cycle (coordinator.py line 146)?
The counter has been incremented at cycle entry, hence `+ 1`. -/
def sensScheduled (st : Coordinator) : Prop :=
  (st.update_counter + 1) % st.sensitivity_interval = 0

instance (st : Coordinator) : Decidable (sensScheduled st) := by
  unfold sensScheduled; infer_instance

/-- Is the device-info refresh due this cycle (coordinator.py line 150)? -/
def devScheduled (st : Coordinator) : Prop :=
  (st.update_counter + 1) % st.deviceinfo_interval = 0

instance (st : Coordinator) : Decidable (devScheduled st) := by
  unfold devScheduled; infer_instance

/-- Lines 143-151 of `_async_update_data`: increment the counter, then
run the scheduled auxiliary refreshes; the second component is the first
propagated transport error, if any. -/
def stageAux (st : Coordinator) (inp : CycleInput) : Coordinator × Option String :=
  let st1 := { st with update_counter := st.update_counter + 1 }
  let r1 := if sensScheduled st then readSensitivity st1 inp.sens else (st1, none)
  match r1.2 with
  | some e => (r1.1, some e)
  | none =>
    if devScheduled st then readDeviceInfo r1.1 inp.devId inp.batt
    else (r1.1, none)

/-- `sum(s[1] for s in self._samples)` (coordinator.py line 185). -/
def totalPulses (l : List Sample) : ℤ :=
  (l.map Sample.dp).sum

/-- `sum(s[2] for s in self._samples)` (coordinator.py line 186). -/
def totalTime (l : List Sample) : ℚ :=
  (l.map Sample.dt).sum

/-- `cps = total_pulses / total_time` (coordinator.py line 189),
unrounded. -/
def cpsOf (l : List Sample) : ℚ :=
  (totalPulses l : ℚ) / totalTime l

/-- `cpm = total_pulses * 60.0 / total_time` (coordinator.py line 190),
unrounded. -/
def cpmOf (l : List Sample) : ℚ :=
  (totalPulses l : ℚ) * 60 / totalTime l

/-- Lines 177-182 of `_async_update_data`: append the admitted sample,
then evict from the front while the oldest entry is older than
`now - AVERAGING_WINDOW_S` (the window constant is 5 seconds). -/
def admitWindow (l : List Sample) (now : ℚ) (dp : ℤ) (dt : ℚ) : List Sample :=
  (l ++ [({ ts := now, dp := dp, dt := dt } : Sample)]).dropWhile
    (fun x => decide (x.ts < now - 5))

/-- Lines 184-203 of `_async_update_data`: the snapshot assembled from
the averaging window when a sample was admitted: if the summed duration
is positive, `cps` and `cpm` are the rounded window averages, and `usvh`
is added when a truthy positive sensitivity is known; otherwise only the
pulse count is reported. -/
def snapFor (sens : Option ℚ) (w : List Sample) (n : ℤ) : Snapshot :=
  if 0 < totalTime w then
    { pulse_count := n
      cps := some (roundTo (cpsOf w) 3)
      cpm := some (roundTo (cpmOf w) 1)
      usvh :=
        match sens with
        | some sv => if 0 < sv then some (roundTo (cpmOf w / sv) 3) else none
        | none => none }
  else { pulse_count := n, cps := none, cpm := none, usvh := none }

/-- Lines 167-208 of `_async_update_data`, after the pulse count has
been read and parsed: difference against the previous sample if one
exists, admit the new sample only when `dt > 0` and `dp ≥ 0`, and always
advance `prev_pulsecount`/`prev_ts` to the just-read values. -/
def applySample (st : Coordinator) (now : ℚ) (pulsecount : ℤ) :
    Coordinator × Except String Snapshot :=
  match st.prev_pulsecount, st.prev_ts with
  | some prevC, some prevT =>
    if 0 < now - prevT ∧ 0 ≤ pulsecount - prevC then
      let w := admitWindow st.samples now (pulsecount - prevC) (now - prevT)
      ({ st with
          samples := w
          prev_pulsecount := some pulsecount
          prev_ts := some now },
        Except.ok (snapFor st.sensitivity w pulsecount))
    else
      ({ st with prev_pulsecount := some pulsecount, prev_ts := some now },
        Except.ok { pulse_count := pulsecount, cps := none, cpm := none, usvh := none })
  | _, _ =>
    ({ st with prev_pulsecount := some pulsecount, prev_ts := some now },
      Except.ok { pulse_count := pulsecount, cps := none, cpm := none, usvh := none })

/-- Lines 153-165 of `_async_update_data`: the primary `tubePulseCount`
read.  A transport error, a falsy response or a non-numeric payload
fails the cycle (`UpdateFailed`); a parsed count proceeds to
`applySample`. -/
def stagePrimary (st : Coordinator) (inp : CycleInput) :
    Coordinator × Except String Snapshot :=
  match inp.pulse with
  | .fail e => (st, Except.error e)
  | .empty => (st, Except.error "No response for tubePulseCount")
  | .ok pcS =>
    if pcS.isEmpty then (st, Except.error "No response for tubePulseCount")
    else
      match pyInt pcS with
      | none => (st, Except.error ("Invalid tubePulseCount: " ++ pcS))
      | some pulsecount => applySample st inp.now pulsecount

/-- `RadProCoordinator._async_update_data` (coordinator.py lines
141-213): one full poll cycle.  Every raised error — from an auxiliary
read's transport failure or from the primary read — is surfaced as
`UpdateFailed` (`Except.error`); the first component is the coordinator
state after whatever mutations happened before the cycle finished or
failed. -/
def updateData (st : Coordinator) (inp : CycleInput) :
    Coordinator × Except String Snapshot :=
  let a := stageAux st inp
  match a.2 with
  | some e => (a.1, Except.error e)
  | none => stagePrimary a.1 inp

/-- No transport error occurs on the auxiliary reads this cycle (those
that are actually scheduled). -/
def auxOk (st : Coordinator) (inp : CycleInput) : Prop :=
  (sensScheduled st → inp.sens.isFail = false) ∧
  (devScheduled st → inp.devId.isFail = false ∧ inp.batt.isFail = false)

instance (st : Coordinator) (inp : CycleInput) : Decidable (auxOk st inp) := by
  unfold auxOk; infer_instance

/-- The window is strictly ordered by timestamp. -/
def windowSorted (l : List Sample) : Prop :=
  l.Pairwise (fun a b => a.ts < b.ts)

/-- Every window entry is no newer than the recorded previous timestamp
(so in particular a nonempty window implies a previous sample exists). -/
def windowLinked (st : Coordinator) : Prop :=
  ∀ s ∈ st.samples, ∃ t, st.prev_ts = some t ∧ s.ts ≤ t

/-- The blank device identity every coordinator starts from. -/
def baseInfo : DeviceInfo := ⟨none, none, none, none⟩

/-- A concrete coordinator state for concrete runs: one previous sample
(count 1000 at t = 0), sensitivity 150, empty window, no auxiliary
refresh due. -/
def baseState : Coordinator :=
  { device_info := baseInfo
    prev_pulsecount := some 1000
    prev_ts := some 0
    sensitivity := some 150
    samples := []
    sensitivity_interval := 1800
    deviceinfo_interval := 300
    update_counter := 0 }

/-- A concrete cycle input: pulse count 1010 read at t = 2, auxiliary
reads returning nothing. -/
def baseInput : CycleInput :=
  ⟨ReadResult.empty, ReadResult.empty, ReadResult.empty, ReadResult.ok "1010", 2⟩

/-- Like `baseInput` but read at t = 0, so the sample differencing sees
dt = 0 and rejects the sample. -/
def rejectInput : CycleInput :=
  ⟨ReadResult.empty, ReadResult.empty, ReadResult.empty, ReadResult.ok "1010", 0⟩

/-- A fresh concrete state whose sensitivity refresh is due every
cycle. -/
def sensDueState : Coordinator :=
  { baseState with
    sensitivity := none
    prev_pulsecount := none
    prev_ts := none
    sensitivity_interval := 1 }

/-- Input whose scheduled sensitivity read raises a transport error
while the primary read is healthy. -/
def sensFailInput : CycleInput :=
  ⟨ReadResult.fail "serial boom", ReadResult.empty, ReadResult.empty,
    ReadResult.ok "100", 0⟩

/-- Input whose scheduled sensitivity read returns a malformed payload
while the primary read is healthy. -/
def sensBadInput : CycleInput :=
  ⟨ReadResult.ok "abc", ReadResult.empty, ReadResult.empty,
    ReadResult.ok "7", 0⟩

/-- A fresh concrete state whose device-info refresh is due every
cycle. -/
def identDueState : Coordinator :=
  { baseState with
    sensitivity := none
    prev_pulsecount := none
    prev_ts := none
    deviceinfo_interval := 1 }

/-- Input whose scheduled deviceId read succeeds but whose battery read
then raises a transport error. -/
def identFailInput : CycleInput :=
  ⟨ReadResult.empty, ReadResult.ok "HW1;SW1;ID1", ReadResult.fail "boom",
    ReadResult.ok "5", 0⟩

/-- The device identity parsed from the documented example payload. -/
def exampleIdentity : DeviceInfo :=
  applyDeviceId baseInfo
    "FS2011 (STM32F051C8);Rad Pro 2.0/en;b5706d937087f975b5812810"

theorem readSensitivity_fields (st : Coordinator) (r : ReadResult) :
    (readSensitivity st r).1.device_info = st.device_info ∧
    (readSensitivity st r).1.prev_pulsecount = st.prev_pulsecount ∧
    (readSensitivity st r).1.prev_ts = st.prev_ts ∧
    (readSensitivity st r).1.samples = st.samples ∧
    (readSensitivity st r).1.sensitivity_interval = st.sensitivity_interval ∧
    (readSensitivity st r).1.deviceinfo_interval = st.deviceinfo_interval ∧
    (readSensitivity st r).1.update_counter = st.update_counter := by
  cases r <;> simp only [readSensitivity] <;>
    first
    | simp
    | (split
       · simp
       · split <;> simp)

theorem readSensitivity_snd_of_not_fail (st : Coordinator) (r : ReadResult)
    (h : r.isFail = false) : (readSensitivity st r).2 = none := by
  cases r with
  | fail e => simp [ReadResult.isFail] at h
  | empty => rfl
  | ok s =>
    simp only [readSensitivity]
    split
    · rfl
    · split <;> rfl

theorem readDeviceInfo_fields (st : Coordinator) (devId batt : ReadResult) :
    (readDeviceInfo st devId batt).1.prev_pulsecount = st.prev_pulsecount ∧
    (readDeviceInfo st devId batt).1.prev_ts = st.prev_ts ∧
    (readDeviceInfo st devId batt).1.sensitivity = st.sensitivity ∧
    (readDeviceInfo st devId batt).1.samples = st.samples ∧
    (readDeviceInfo st devId batt).1.sensitivity_interval = st.sensitivity_interval ∧
    (readDeviceInfo st devId batt).1.deviceinfo_interval = st.deviceinfo_interval ∧
    (readDeviceInfo st devId batt).1.update_counter = st.update_counter := by
  cases devId <;> cases batt <;> simp only [readDeviceInfo] <;>
    first
    | simp
    | (split
       · simp
       · split <;> simp)

theorem readDeviceInfo_snd_of_not_fail (st : Coordinator) (devId batt : ReadResult)
    (h1 : devId.isFail = false) (h2 : batt.isFail = false) :
    (readDeviceInfo st devId batt).2 = none := by
  cases devId with
  | fail e => simp [ReadResult.isFail] at h1
  | empty =>
    cases batt with
    | fail e => simp [ReadResult.isFail] at h2
    | empty => rfl
    | ok bv =>
      simp only [readDeviceInfo]
      split
      · rfl
      · split <;> rfl
  | ok raw =>
    cases batt with
    | fail e => simp [ReadResult.isFail] at h2
    | empty => rfl
    | ok bv =>
      simp only [readDeviceInfo]
      split
      · rfl
      · split <;> rfl


theorem stageAux_fields (st : Coordinator) (inp : CycleInput) :
    (stageAux st inp).1.prev_pulsecount = st.prev_pulsecount ∧
    (stageAux st inp).1.prev_ts = st.prev_ts ∧
    (stageAux st inp).1.samples = st.samples ∧
    (stageAux st inp).1.sensitivity_interval = st.sensitivity_interval ∧
    (stageAux st inp).1.deviceinfo_interval = st.deviceinfo_interval ∧
    (stageAux st inp).1.update_counter = st.update_counter + 1 := by
  simp only [stageAux]
  set st1 : Coordinator := { st with update_counter := st.update_counter + 1 } with hst1
  set r1 := if sensScheduled st then readSensitivity st1 inp.sens else (st1, none) with hr1
  have hfields : r1.1.prev_pulsecount = st.prev_pulsecount ∧
      r1.1.prev_ts = st.prev_ts ∧ r1.1.samples = st.samples ∧
      r1.1.sensitivity_interval = st.sensitivity_interval ∧
      r1.1.deviceinfo_interval = st.deviceinfo_interval ∧
      r1.1.update_counter = st.update_counter + 1 := by
    rw [hr1]
    split
    · obtain ⟨_, h2, h3, h4, h5, h6, h7⟩ := readSensitivity_fields st1 inp.sens
      exact ⟨h2, h3, h4, h5, h6, h7⟩
    · exact ⟨rfl, rfl, rfl, rfl, rfl, rfl⟩
  obtain ⟨f1, f2, f3, f4, f5, f6⟩ := hfields
  rcases hv : r1.2 with _ | e
  · simp only [hv]
    split
    · obtain ⟨g1, g2, _, g4, g5, g6, g7⟩ := readDeviceInfo_fields r1.1 inp.devId inp.batt
      exact ⟨g1.trans f1, g2.trans f2, g4.trans f3, g5.trans f4, g6.trans f5, g7.trans f6⟩
    · exact ⟨f1, f2, f3, f4, f5, f6⟩
  · simp only [hv]
    exact ⟨f1, f2, f3, f4, f5, f6⟩

theorem stageAux_snd_of_auxOk (st : Coordinator) (inp : CycleInput)
    (h : auxOk st inp) : (stageAux st inp).2 = none := by
  obtain ⟨h1, h2⟩ := h
  simp only [stageAux]
  set st1 : Coordinator := { st with update_counter := st.update_counter + 1 } with hst1
  set r1 := if sensScheduled st then readSensitivity st1 inp.sens else (st1, none) with hr1
  have hsnd : r1.2 = none := by
    rw [hr1]
    split
    · next hs => exact readSensitivity_snd_of_not_fail st1 inp.sens (h1 hs)
    · rfl
  simp only [hsnd]
  split
  · next hd =>
    exact readDeviceInfo_snd_of_not_fail r1.1 inp.devId inp.batt (h2 hd).1 (h2 hd).2
  · rfl

theorem updateData_eq_of_auxOk (st : Coordinator) (inp : CycleInput)
    (h : auxOk st inp) :
    updateData st inp = stagePrimary (stageAux st inp).1 inp := by
  simp only [updateData, stageAux_snd_of_auxOk st inp h]

theorem stagePrimary_ok_eq (st : Coordinator) (inp : CycleInput) (s : String) (n : ℤ)
    (hp : inp.pulse = ReadResult.ok s) (hne : s.isEmpty = false)
    (hn : pyInt s = some n) :
    stagePrimary st inp = applySample st inp.now n := by
  simp only [stagePrimary, hp, hne, hn, Bool.false_eq_true, if_false]

theorem stagePrimary_fail (st : Coordinator) (inp : CycleInput) (m : String)
    (hp : inp.pulse = ReadResult.fail m) :
    stagePrimary st inp = (st, Except.error m) := by
  simp only [stagePrimary, hp]

theorem stagePrimary_noresp (st : Coordinator) (inp : CycleInput)
    (hp : inp.pulse = ReadResult.empty) :
    stagePrimary st inp = (st, Except.error "No response for tubePulseCount") := by
  simp only [stagePrimary, hp]

theorem stagePrimary_emptypayload (st : Coordinator) (inp : CycleInput) (s : String)
    (hp : inp.pulse = ReadResult.ok s) (he : s.isEmpty = true) :
    stagePrimary st inp = (st, Except.error "No response for tubePulseCount") := by
  simp only [stagePrimary, hp, he, if_true]

theorem stagePrimary_badint (st : Coordinator) (inp : CycleInput) (s : String)
    (hp : inp.pulse = ReadResult.ok s) (hne : s.isEmpty = false)
    (hn : pyInt s = none) :
    stagePrimary st inp = (st, Except.error ("Invalid tubePulseCount: " ++ s)) := by
  simp only [stagePrimary, hp, hne, hn, Bool.false_eq_true, if_false]

theorem applySample_admits (st : Coordinator) (now : ℚ) (n pc : ℤ) (pt : ℚ)
    (hpc : st.prev_pulsecount = some pc) (hpt : st.prev_ts = some pt)
    (h : 0 < now - pt ∧ 0 ≤ n - pc) :
    applySample st now n =
      ({ st with
          samples := admitWindow st.samples now (n - pc) (now - pt)
          prev_pulsecount := some n
          prev_ts := some now },
        Except.ok (snapFor st.sensitivity
          (admitWindow st.samples now (n - pc) (now - pt)) n)) := by
  simp only [applySample, hpc, hpt, if_pos h]

theorem applySample_reject (st : Coordinator) (now : ℚ) (n pc : ℤ) (pt : ℚ)
    (hpc : st.prev_pulsecount = some pc) (hpt : st.prev_ts = some pt)
    (h : ¬(0 < now - pt ∧ 0 ≤ n - pc)) :
    applySample st now n =
      ({ st with prev_pulsecount := some n, prev_ts := some now },
        Except.ok { pulse_count := n, cps := none, cpm := none, usvh := none }) := by
  simp only [applySample, hpc, hpt, if_neg h]

theorem applySample_noprev (st : Coordinator) (now : ℚ) (n : ℤ)
    (h : st.prev_pulsecount = none ∨ st.prev_ts = none) :
    applySample st now n =
      ({ st with prev_pulsecount := some n, prev_ts := some now },
        Except.ok { pulse_count := n, cps := none, cpm := none, usvh := none }) := by
  rcases h with h | h
  · cases hpt : st.prev_ts <;> simp only [applySample, h, hpt]
  · cases hpc : st.prev_pulsecount <;> simp only [applySample, h, hpc]

theorem applySample_isOk (st : Coordinator) (now : ℚ) (n : ℤ) :
    ∃ snap, (applySample st now n).2 = Except.ok snap := by
  rcases hpc : st.prev_pulsecount with _ | pc
  · exact ⟨_, by rw [applySample_noprev st now n (Or.inl hpc)]⟩
  · rcases hpt : st.prev_ts with _ | pt
    · exact ⟨_, by rw [applySample_noprev st now n (Or.inr hpt)]⟩
    · by_cases h : 0 < now - pt ∧ 0 ≤ n - pc
      · exact ⟨_, by rw [applySample_admits st now n pc pt hpc hpt h]⟩
      · exact ⟨_, by rw [applySample_reject st now n pc pt hpc hpt h]⟩

theorem stagePrimary_error_frame (st : Coordinator) (inp : CycleInput) (e : String)
    (h : (stagePrimary st inp).2 = Except.error e) :
    (stagePrimary st inp).1 = st := by
  rcases hp : inp.pulse with s | _ | m
  · by_cases he : s.isEmpty = true
    · rw [stagePrimary_emptypayload st inp s hp he]
    · rcases hn : pyInt s with _ | n
      · rw [stagePrimary_badint st inp s hp (by simpa using he) hn]
      · rw [stagePrimary_ok_eq st inp s n hp (by simpa using he) hn] at h ⊢
        obtain ⟨snap, hsnap⟩ := applySample_isOk st inp.now n
        rw [hsnap] at h
        exact absurd h (by simp)
  · rw [stagePrimary_noresp st inp hp]
  · rw [stagePrimary_fail st inp m hp]

theorem updateData_error_frame (st : Coordinator) (inp : CycleInput) (e : String)
    (h : (updateData st inp).2 = Except.error e) :
    (updateData st inp).1.prev_pulsecount = st.prev_pulsecount ∧
    (updateData st inp).1.prev_ts = st.prev_ts ∧
    (updateData st inp).1.samples = st.samples := by
  obtain ⟨f1, f2, f3, _, _, _⟩ := stageAux_fields st inp
  simp only [updateData] at h ⊢
  rcases hv : (stageAux st inp).2 with _ | e2
  · simp only [hv] at h ⊢
    have hfst := stagePrimary_error_frame (stageAux st inp).1 inp e h
    rw [hfst]
    exact ⟨f1, f2, f3⟩
  · simp only [hv]
    exact ⟨f1, f2, f3⟩

theorem updateData_transport_fail_primary (st : Coordinator) (inp : CycleInput)
    (haux : auxOk st inp) (m : String) (hp : inp.pulse = ReadResult.fail m) :
    (updateData st inp).2 = Except.error m := by
  rw [updateData_eq_of_auxOk st inp haux, stagePrimary_fail _ inp m hp]

theorem updateData_transport_fail_sens (st : Coordinator) (inp : CycleInput)
    (hs : sensScheduled st) (m : String) (hf : inp.sens = ReadResult.fail m) :
    (updateData st inp).2 = Except.error m := by
  simp only [updateData, stageAux, if_pos hs, hf, readSensitivity]

theorem dropWhile_mem_ge (c : ℚ) (xs : List Sample) (hs : windowSorted xs) :
    ∀ y ∈ xs.dropWhile (fun s => decide (s.ts < c)), c ≤ y.ts := by
  induction xs with
  | nil => intro y hy; simp at hy
  | cons x rest ih =>
    intro y hy
    by_cases hx : x.ts < c
    · rw [List.dropWhile_cons_of_pos (by simpa using hx)] at hy
      exact ih (List.Pairwise.of_cons hs) y hy
    · rw [List.dropWhile_cons_of_neg (by simpa using hx)] at hy
      rcases List.mem_cons.mp hy with rfl | hy2
      · exact le_of_not_lt hx
      · exact le_of_lt (lt_of_le_of_lt (le_of_not_lt hx)
          ((List.pairwise_cons.mp hs).1 y hy2))

theorem admitWindow_sorted (l : List Sample) (now : ℚ) (dp : ℤ) (dt : ℚ)
    (hs : windowSorted l) (hlt : ∀ s ∈ l, s.ts < now) :
    windowSorted (admitWindow l now dp dt) := by
  unfold admitWindow
  apply List.Pairwise.sublist (List.dropWhile_sublist _)
  rw [List.pairwise_append]
  refine ⟨hs, List.pairwise_singleton _ _, ?_⟩
  intro a ha b hb
  rw [List.mem_singleton] at hb
  subst hb
  exact hlt a ha

theorem admitWindow_bound (l : List Sample) (now : ℚ) (dp : ℤ) (dt : ℚ)
    (hs : windowSorted l) (hlt : ∀ s ∈ l, s.ts < now) :
    ∀ y ∈ admitWindow l now dp dt, now - 5 ≤ y.ts := by
  apply dropWhile_mem_ge
  rw [windowSorted, List.pairwise_append]
  refine ⟨hs, List.pairwise_singleton _ _, ?_⟩
  intro a ha b hb
  rw [List.mem_singleton] at hb
  subst hb
  exact hlt a ha

theorem admitWindow_mem_sub (l : List Sample) (now : ℚ) (dp : ℤ) (dt : ℚ) :
    ∀ y ∈ admitWindow l now dp dt,
      y ∈ l ∨ y = ({ ts := now, dp := dp, dt := dt } : Sample) := by
  intro y hy
  unfold admitWindow at hy
  have hmem := List.Sublist.subset (List.dropWhile_sublist _) hy
  rcases List.mem_append.mp hmem with h | h
  · exact Or.inl h
  · exact Or.inr (List.mem_singleton.mp h)

theorem admitWindow_mem_new (l : List Sample) (now : ℚ) (dp : ℤ) (dt : ℚ) :
    ({ ts := now, dp := dp, dt := dt } : Sample) ∈ admitWindow l now dp dt := by
  unfold admitWindow
  induction l with
  | nil =>
    rw [List.nil_append,
      List.dropWhile_cons_of_neg (by simp only [decide_eq_true_eq, not_lt]; linarith)]
    exact List.mem_singleton.mpr rfl
  | cons x xs ih =>
    rw [List.cons_append]
    by_cases hx : x.ts < now - 5
    · rw [List.dropWhile_cons_of_pos (by simpa using hx)]
      exact ih
    · rw [List.dropWhile_cons_of_neg (by simpa using hx)]
      exact List.mem_cons_of_mem x (List.mem_append_right xs (List.mem_singleton.mpr rfl))

theorem readSensitivity_keep_of_badfloat (st : Coordinator) (s : String)
    (hbad : pyFloat s = none) :
    readSensitivity st (ReadResult.ok s) = (st, none) := by
  simp only [readSensitivity]
  split
  · rfl
  · rw [hbad]

theorem applyDeviceId_battery (d : DeviceInfo) (raw : String) :
    (applyDeviceId d raw).battery_voltage = d.battery_voltage := by
  simp only [applyDeviceId]
  split
  · rfl
  · split
    · rfl
    · split <;> rfl

theorem readDeviceInfo_battery_of_badfloat (st : Coordinator) (devId : ReadResult)
    (s : String) (hbad : pyFloat s = none) :
    (readDeviceInfo st devId (ReadResult.ok s)).1.device_info.battery_voltage =
      st.device_info.battery_voltage := by
  cases devId with
  | fail e => rfl
  | empty =>
    simp only [readDeviceInfo]
    split
    · rfl
    · rw [hbad]
  | ok raw =>
    simp only [readDeviceInfo]
    split
    · exact applyDeviceId_battery st.device_info raw
    · rw [hbad]
      exact applyDeviceId_battery st.device_info raw

theorem applySample_pres (st : Coordinator) (now : ℚ) (n : ℤ) :
    (applySample st now n).1.sensitivity = st.sensitivity ∧
    (applySample st now n).1.device_info = st.device_info := by
  rcases hpc : st.prev_pulsecount with _ | pc
  · rw [applySample_noprev st now n (Or.inl hpc)]
    exact ⟨rfl, rfl⟩
  · rcases hpt : st.prev_ts with _ | pt
    · rw [applySample_noprev st now n (Or.inr hpt)]
      exact ⟨rfl, rfl⟩
    · by_cases h : 0 < now - pt ∧ 0 ≤ n - pc
      · rw [applySample_admits st now n pc pt hpc hpt h]
        exact ⟨rfl, rfl⟩
      · rw [applySample_reject st now n pc pt hpc hpt h]
        exact ⟨rfl, rfl⟩

theorem stagePrimary_pres (st : Coordinator) (inp : CycleInput) :
    (stagePrimary st inp).1.sensitivity = st.sensitivity ∧
    (stagePrimary st inp).1.device_info = st.device_info := by
  rcases hp : inp.pulse with s | _ | m
  · by_cases he : s.isEmpty = true
    · rw [stagePrimary_emptypayload st inp s hp he]
      exact ⟨rfl, rfl⟩
    · rcases hn : pyInt s with _ | n
      · rw [stagePrimary_badint st inp s hp (by simpa using he) hn]
        exact ⟨rfl, rfl⟩
      · rw [stagePrimary_ok_eq st inp s n hp (by simpa using he) hn]
        exact applySample_pres st inp.now n
  · rw [stagePrimary_noresp st inp hp]
    exact ⟨rfl, rfl⟩
  · rw [stagePrimary_fail st inp m hp]
    exact ⟨rfl, rfl⟩

theorem stageAux_sensitivity_of_badfloat (st : Coordinator) (inp : CycleInput)
    (s : String) (hsens : inp.sens = ReadResult.ok s) (hbad : pyFloat s = none) :
    (stageAux st inp).1.sensitivity = st.sensitivity := by
  simp only [stageAux]
  set st1 : Coordinator := { st with update_counter := st.update_counter + 1 } with hst1
  set r1 := if sensScheduled st then readSensitivity st1 inp.sens else (st1, none) with hr1
  have hfst : r1.1.sensitivity = st.sensitivity := by
    rw [hr1]
    split
    · rw [hsens, readSensitivity_keep_of_badfloat st1 s hbad]
    · rfl
  rcases hv : r1.2 with _ | e
  · simp only [hv]
    split
    · obtain ⟨_, _, g3, _, _, _, _⟩ := readDeviceInfo_fields r1.1 inp.devId inp.batt
      exact g3.trans hfst
    · exact hfst
  · simp only [hv]
    exact hfst

theorem updateData_sensitivity_of_badfloat (st : Coordinator) (inp : CycleInput)
    (s : String) (hsens : inp.sens = ReadResult.ok s) (hbad : pyFloat s = none) :
    (updateData st inp).1.sensitivity = st.sensitivity := by
  have hst := stageAux_sensitivity_of_badfloat st inp s hsens hbad
  simp only [updateData]
  rcases hv : (stageAux st inp).2 with _ | e
  · simp only [hv]
    exact ((stagePrimary_pres (stageAux st inp).1 inp).1).trans hst
  · simp only [hv]
    exact hst

/-- Claim C9: the transport's close is idempotent: closing drops the
held connection in every case, a second close is a no-op that does not
invoke the underlying serial close (so cannot raise), and closing an
unopened transport is likewise a silent no-op. -/
theorem C9_close_idempotent (io : RadProSerial) :
    (RadProSerial.close io).1.serial = none ∧
    RadProSerial.close (RadProSerial.close io).1 = ((RadProSerial.close io).1, false) ∧
    (∀ p b, RadProSerial.close ⟨p, b, none⟩ = (⟨p, b, none⟩, false)) := by
  have h1 : (RadProSerial.close io).1 = { io with serial := none } := by
    unfold RadProSerial.close
    split <;> rfl
  refine ⟨by rw [h1], by rw [h1]; rfl, fun p b => rfl⟩

/-- Claim C8: response parsing of the transport: an empty read yields no
value without raising; a line whose stripped form starts with the
two-character marker "OK" yields the payload after the three-character
prefix, trimmed (so "OK 42" gives "42"); any other line (such as
"ERR bad key") yields no value. -/
theorem C8_query_response_parsing :
    queryParse "" = none ∧
    queryParse "OK 42" = some "42" ∧
    queryParse "ERR bad key" = none ∧
    (∀ s : String, s.isEmpty = false →
      startsWithChars ['O', 'K'] (pyStrip s).toList = true →
      queryParse s = some (pyStrip (pyDropStr (pyStrip s) 3))) ∧
    (∀ s : String, startsWithChars ['O', 'K'] (pyStrip s).toList = false →
      queryParse s = none) := by
  refine ⟨by decide, by decide, by decide, ?_, ?_⟩
  · intro s hne hok
    simp only [queryParse, hne, Bool.false_eq_true, if_false, hok, if_true]
  · intro s hnok
    simp only [queryParse, hnok, Bool.false_eq_true, if_false]
    split <;> rfl

/-- Witness for C8 at the concrete line "OK ping". -/
theorem C8_query_response_parsing_witness :
    queryParse "OK ping" = some "ping" := by
  rw [C8_query_response_parsing.2.2.2.1 "OK ping" (by decide) (by decide)]
  decide

/-- Claim C7: device-identity parsing splits the deviceId payload on
semicolons: at least three fields assign hardware_id, software_id and
device_id from fields 0-2 trimmed (extras ignored); exactly one field
assigns the whole trimmed payload to device_id; two fields update
nothing; model and sw_version are recomputed on access, and the
documented example payload yields model "FS2011" and sw_version
"2.0". -/
theorem C7_device_identity_parsing :
    (exampleIdentity.hardware_id = some "FS2011 (STM32F051C8)" ∧
      exampleIdentity.software_id = some "Rad Pro 2.0/en" ∧
      exampleIdentity.device_id = some "b5706d937087f975b5812810" ∧
      exampleIdentity.model = some "FS2011" ∧
      exampleIdentity.sw_version = some "2.0") ∧
    (∀ d : DeviceInfo, ∀ raw : String, raw.isEmpty = true →
      applyDeviceId d raw = d) ∧
    (∀ d : DeviceInfo, ∀ raw : String, raw.isEmpty = false →
      (pySplit raw ';').length = 1 →
      applyDeviceId d raw = { d with device_id := some (pyStrip raw) }) ∧
    (∀ d : DeviceInfo, ∀ raw : String, raw.isEmpty = false →
      (pySplit raw ';').length = 2 → applyDeviceId d raw = d) ∧
    (∀ d : DeviceInfo, ∀ raw : String, raw.isEmpty = false →
      3 ≤ (pySplit raw ';').length →
      applyDeviceId d raw =
        { d with
          hardware_id := some (pyStrip ((pySplit raw ';').getD 0 ""))
          software_id := some (pyStrip ((pySplit raw ';').getD 1 ""))
          device_id := some (pyStrip ((pySplit raw ';').getD 2 "")) }) := by
  refine ⟨⟨by decide, by decide, by decide, by decide, by decide⟩, ?_, ?_, ?_, ?_⟩
  · intro d raw h
    simp only [applyDeviceId, h, if_true]
  · intro d raw hne hlen
    simp only [applyDeviceId, hne, Bool.false_eq_true, if_false, hlen]
    norm_num
  · intro d raw hne hlen
    simp only [applyDeviceId, hne, Bool.false_eq_true, if_false, hlen]
    norm_num
  · intro d raw hne hlen
    simp only [applyDeviceId, hne, Bool.false_eq_true, if_false, if_pos hlen]

/-- Witness for C7: a two-field payload updates nothing. -/
theorem C7_device_identity_parsing_witness :
    applyDeviceId baseInfo "a;b" = baseInfo :=
  C7_device_identity_parsing.2.2.2.1 baseInfo "a;b" (by decide) (by decide)

/-- Claim C1: in every successful poll cycle with a previous
(count, timestamp) pair, the new sample (now, dp, dt) enters the rolling
window exactly when dt > 0 and dp ≥ 0 — a rejected sample leaves the
window untouched and raises no error — and prev_count/prev_ts always
advance to the just-read values. -/
theorem C1_sample_admission (st : Coordinator) (inp : CycleInput)
    (haux : auxOk st inp) (s : String) (n : ℤ)
    (hp : inp.pulse = ReadResult.ok s) (hne : s.isEmpty = false)
    (hn : pyInt s = some n) :
    (∃ snap, (updateData st inp).2 = Except.ok snap) ∧
    (updateData st inp).1.prev_pulsecount = some n ∧
    (updateData st inp).1.prev_ts = some inp.now ∧
    (∀ pc pt, st.prev_pulsecount = some pc → st.prev_ts = some pt →
      ((0 < inp.now - pt ∧ 0 ≤ n - pc) →
        (updateData st inp).1.samples =
          admitWindow st.samples inp.now (n - pc) (inp.now - pt) ∧
        ({ ts := inp.now, dp := n - pc, dt := inp.now - pt } : Sample) ∈
          (updateData st inp).1.samples) ∧
      (¬(0 < inp.now - pt ∧ 0 ≤ n - pc) →
        (updateData st inp).1.samples = st.samples)) := by
  rw [updateData_eq_of_auxOk st inp haux, stagePrimary_ok_eq _ inp s n hp hne hn]
  obtain ⟨f1, f2, f3, _, _, _⟩ := stageAux_fields st inp
  rcases hpc : st.prev_pulsecount with _ | pc
  · rw [applySample_noprev _ inp.now n (Or.inl (f1.trans hpc))]
    refine ⟨⟨_, rfl⟩, rfl, rfl, ?_⟩
    intro pc pt hpc2 _
    exact Option.noConfusion hpc2
  · rcases hpt : st.prev_ts with _ | pt
    · rw [applySample_noprev _ inp.now n (Or.inr (f2.trans hpt))]
      refine ⟨⟨_, rfl⟩, rfl, rfl, ?_⟩
      intro pc2 pt hpc2 hpt2
      exact Option.noConfusion hpt2
    · by_cases hadm : 0 < inp.now - pt ∧ 0 ≤ n - pc
      · rw [applySample_admits _ inp.now n pc pt (f1.trans hpc) (f2.trans hpt) hadm]
        refine ⟨⟨_, rfl⟩, rfl, rfl, ?_⟩
        intro pc2 pt2 hpc2 hpt2
        injection hpc2 with hpc3
        injection hpt2 with hpt3
        subst hpc3
        subst hpt3
        constructor
        · intro _
          constructor
          · show admitWindow ((stageAux st inp).1).samples inp.now (n - pc) (inp.now - pt) =
              admitWindow st.samples inp.now (n - pc) (inp.now - pt)
            rw [f3]
          · exact admitWindow_mem_new _ inp.now (n - pc) (inp.now - pt)
        · intro hcon
          exact absurd hadm hcon
      · rw [applySample_reject _ inp.now n pc pt (f1.trans hpc) (f2.trans hpt) hadm]
        refine ⟨⟨_, rfl⟩, rfl, rfl, ?_⟩
        intro pc2 pt2 hpc2 hpt2
        injection hpc2 with hpc3
        injection hpt2 with hpt3
        subst hpc3
        subst hpt3
        exact ⟨fun hcon => absurd hcon hadm, fun _ => f3⟩

/-- Witness for C1 at a concrete admitted sample: counts 1000 then 1010
two seconds apart. -/
theorem C1_sample_admission_witness :
    (∃ snap, (updateData baseState baseInput).2 = Except.ok snap) ∧
    (updateData baseState baseInput).1.prev_pulsecount = some 1010 ∧
    (updateData baseState baseInput).1.prev_ts = some 2 := by
  obtain ⟨h1, h2, h3, _⟩ :=
    C1_sample_admission baseState baseInput (by decide) "1010" 1010 rfl (by decide)
      (by decide)
  exact ⟨h1, h2, h3⟩

/-- Claim C2: when a sample with timestamp `now` is admitted into the
window of a well-formed coordinator, every retained entry is at most
5 seconds older than `now`, and the window stays strictly
time-ordered. -/
theorem C2_window_eviction (st : Coordinator) (inp : CycleInput)
    (hsorted : windowSorted st.samples) (hlinked : windowLinked st)
    (haux : auxOk st inp) (s : String) (n : ℤ)
    (hp : inp.pulse = ReadResult.ok s) (hne : s.isEmpty = false)
    (hn : pyInt s = some n) (pc : ℤ) (pt : ℚ)
    (hpc : st.prev_pulsecount = some pc) (hpt : st.prev_ts = some pt)
    (hdt : 0 < inp.now - pt) (hdp : 0 ≤ n - pc) :
    windowSorted (updateData st inp).1.samples ∧
    ∀ y ∈ (updateData st inp).1.samples, inp.now - 5 ≤ y.ts := by
  have hlt : ∀ x ∈ st.samples, x.ts < inp.now := by
    intro x hx
    obtain ⟨t, ht, hle⟩ := hlinked x hx
    rw [hpt] at ht
    injection ht with ht2
    subst ht2
    linarith
  rw [updateData_eq_of_auxOk st inp haux, stagePrimary_ok_eq _ inp s n hp hne hn]
  obtain ⟨f1, f2, f3, _, _, _⟩ := stageAux_fields st inp
  rw [applySample_admits _ inp.now n pc pt (f1.trans hpc) (f2.trans hpt) ⟨hdt, hdp⟩]
  have hsw : ((stageAux st inp).1).samples = st.samples := f3
  constructor
  · show windowSorted
      (admitWindow ((stageAux st inp).1).samples inp.now (n - pc) (inp.now - pt))
    rw [hsw]
    exact admitWindow_sorted st.samples inp.now (n - pc) (inp.now - pt) hsorted hlt
  · show ∀ y ∈ admitWindow ((stageAux st inp).1).samples inp.now (n - pc) (inp.now - pt),
      inp.now - 5 ≤ y.ts
    rw [hsw]
    exact admitWindow_bound st.samples inp.now (n - pc) (inp.now - pt) hsorted hlt

/-- Witness for C2 at the concrete admitted sample of `baseState` and
`baseInput`. -/
theorem C2_window_eviction_witness :
    windowSorted (updateData baseState baseInput).1.samples ∧
    ∀ y ∈ (updateData baseState baseInput).1.samples, (2 : ℚ) - 5 ≤ y.ts := by
  have h :=
    C2_window_eviction baseState baseInput
      (by simp [windowSorted, baseState])
      (by intro x hx; simp [baseState] at hx)
      (by decide) "1010" 1010 rfl (by decide) (by decide) 1000 0 (by decide)
      (by decide) (by norm_num [baseInput]) (by decide)
  exact h

theorem snapFor_pulse (sens : Option ℚ) (w : List Sample) (n : ℤ) :
    (snapFor sens w n).pulse_count = n := by
  unfold snapFor
  split <;> rfl

theorem snapFor_pos (sens : Option ℚ) (w : List Sample) (n : ℤ)
    (h : 0 < totalTime w) :
    snapFor sens w n =
      { pulse_count := n
        cps := some (roundTo (cpsOf w) 3)
        cpm := some (roundTo (cpmOf w) 1)
        usvh :=
          match sens with
          | some sv => if 0 < sv then some (roundTo (cpmOf w / sv) 3) else none
          | none => none } := by
  unfold snapFor
  rw [if_pos h]

theorem snapFor_nonpos (sens : Option ℚ) (w : List Sample) (n : ℤ)
    (h : ¬0 < totalTime w) :
    snapFor sens w n = ⟨n, none, none, none⟩ := by
  unfold snapFor
  rw [if_neg h]

/-- Full characterisation of a successful poll cycle: either a sample
was admitted (previous pair exists and the deltas pass the guard), the
window was replaced by `admitWindow` and the snapshot computed from it,
or nothing was admitted, the window is untouched and the snapshot
carries only the pulse count. -/
theorem updateData_ok_cases (st : Coordinator) (inp : CycleInput)
    (haux : auxOk st inp) (s : String) (n : ℤ)
    (hp : inp.pulse = ReadResult.ok s) (hne : s.isEmpty = false)
    (hn : pyInt s = some n) :
    (∃ pc pt, st.prev_pulsecount = some pc ∧ st.prev_ts = some pt ∧
      (0 < inp.now - pt ∧ 0 ≤ n - pc) ∧
      (updateData st inp).1.samples =
        admitWindow st.samples inp.now (n - pc) (inp.now - pt) ∧
      (updateData st inp).2 =
        Except.ok
          (snapFor (updateData st inp).1.sensitivity (updateData st inp).1.samples n)) ∨
    ((updateData st inp).1.samples = st.samples ∧
      (updateData st inp).2 = Except.ok ⟨n, none, none, none⟩ ∧
      (st.prev_pulsecount = none ∨ st.prev_ts = none ∨
        ∃ pc pt, st.prev_pulsecount = some pc ∧ st.prev_ts = some pt ∧
          ¬(0 < inp.now - pt ∧ 0 ≤ n - pc))) := by
  rw [updateData_eq_of_auxOk st inp haux, stagePrimary_ok_eq _ inp s n hp hne hn]
  obtain ⟨f1, f2, f3, _, _, _⟩ := stageAux_fields st inp
  rcases hpc : st.prev_pulsecount with _ | pc
  · rw [applySample_noprev _ inp.now n (Or.inl (f1.trans hpc))]
    exact Or.inr ⟨f3, rfl, Or.inl rfl⟩
  · rcases hpt : st.prev_ts with _ | pt
    · rw [applySample_noprev _ inp.now n (Or.inr (f2.trans hpt))]
      exact Or.inr ⟨f3, rfl, Or.inr (Or.inl rfl)⟩
    · by_cases hadm : 0 < inp.now - pt ∧ 0 ≤ n - pc
      · rw [applySample_admits _ inp.now n pc pt (f1.trans hpc) (f2.trans hpt) hadm]
        refine Or.inl ⟨pc, pt, rfl, rfl, hadm, ?_, rfl⟩
        show admitWindow ((stageAux st inp).1).samples inp.now (n - pc) (inp.now - pt) =
          admitWindow st.samples inp.now (n - pc) (inp.now - pt)
        rw [f3]
      · rw [applySample_reject _ inp.now n pc pt (f1.trans hpc) (f2.trans hpt) hadm]
        exact Or.inr ⟨f3, rfl, Or.inr (Or.inr ⟨pc, pt, rfl, rfl, hadm⟩)⟩

/-- Claim C10: every successful cycle's snapshot carries the lifetime
pulse count; cps is present iff cpm is; and when no sample was admitted
(no previous pair, or a rejected delta) the cycle performs no window
eviction and the snapshot contains none of cps, cpm, usvh. -/
theorem C10_snapshot_content (st : Coordinator) (inp : CycleInput)
    (haux : auxOk st inp) (s : String) (n : ℤ)
    (hp : inp.pulse = ReadResult.ok s) (hne : s.isEmpty = false)
    (hn : pyInt s = some n) (snap : Snapshot)
    (hsnap : (updateData st inp).2 = Except.ok snap) :
    snap.pulse_count = n ∧
    (snap.cps.isSome = snap.cpm.isSome) ∧
    ((st.prev_pulsecount = none ∨ st.prev_ts = none) →
      (updateData st inp).1.samples = st.samples ∧
      snap.cps = none ∧ snap.cpm = none ∧ snap.usvh = none) ∧
    (∀ pc pt, st.prev_pulsecount = some pc → st.prev_ts = some pt →
      ¬(0 < inp.now - pt ∧ 0 ≤ n - pc) →
      (updateData st inp).1.samples = st.samples ∧
      snap.cps = none ∧ snap.cpm = none ∧ snap.usvh = none) := by
  rcases updateData_ok_cases st inp haux s n hp hne hn with
    ⟨pc, pt, hpc, hpt, hadm, hw, hres⟩ | ⟨hw, hres, hcase⟩
  · rw [hres] at hsnap
    injection hsnap with hs2
    subst hs2
    refine ⟨snapFor_pulse _ _ _, ?_, ?_, ?_⟩
    · by_cases htt : 0 < totalTime (updateData st inp).1.samples
      · rw [snapFor_pos _ _ _ htt]
        rfl
      · rw [snapFor_nonpos _ _ _ htt]
    · intro hcon
      rcases hcon with h | h
      · rw [hpc] at h
        exact Option.noConfusion h
      · rw [hpt] at h
        exact Option.noConfusion h
    · intro pc2 pt2 hpc2 hpt2 hcon
      rw [hpc] at hpc2
      rw [hpt] at hpt2
      injection hpc2 with e1
      injection hpt2 with e2
      subst e1
      subst e2
      exact absurd hadm hcon
  · rw [hres] at hsnap
    injection hsnap with hs2
    subst hs2
    exact ⟨rfl, rfl, fun _ => ⟨hw, rfl, rfl, rfl⟩, fun _ _ _ _ _ => ⟨hw, rfl, rfl, rfl⟩⟩

/-- Claim C5: in every emitted snapshot, usvh is present exactly when a
strictly positive sensitivity is known and cpm was computed this cycle,
and then usvh is the unrounded cpm divided by the sensitivity, rounded
to three decimals. -/
theorem C5_usvh_presence (st : Coordinator) (inp : CycleInput)
    (haux : auxOk st inp) (s : String) (n : ℤ)
    (hp : inp.pulse = ReadResult.ok s) (hne : s.isEmpty = false)
    (hn : pyInt s = some n) (snap : Snapshot)
    (hsnap : (updateData st inp).2 = Except.ok snap) :
    (snap.usvh.isSome = true ↔
      ((∃ sv, (updateData st inp).1.sensitivity = some sv ∧ 0 < sv) ∧
        snap.cpm.isSome = true)) ∧
    (∀ sv, (updateData st inp).1.sensitivity = some sv → 0 < sv →
      ∀ c, snap.cpm = some c →
        snap.usvh = some (roundTo (cpmOf (updateData st inp).1.samples / sv) 3)) := by
  rcases updateData_ok_cases st inp haux s n hp hne hn with
    ⟨pc, pt, hpc, hpt, hadm, hw, hres⟩ | ⟨hw, hres, hcase⟩
  · rw [hres] at hsnap
    injection hsnap with hs2
    subst hs2
    by_cases htt : 0 < totalTime (updateData st inp).1.samples
    · rw [snapFor_pos _ _ _ htt]
      rcases hsens : (updateData st inp).1.sensitivity with _ | sv
      · constructor
        · simp
        · intro sv2 hsv2 _ _ _
          exact Option.noConfusion hsv2
      · by_cases hpos : 0 < sv
        · constructor
          · simp [hpos]
          · intro sv2 hsv2 hp2 c hc
            injection hsv2 with e
            subst e
            simp [hpos]
        · constructor
          · simp [hpos]
          · intro sv2 hsv2 hp2 c hc
            injection hsv2 with e
            subst e
            exact absurd hp2 hpos
    · rw [snapFor_nonpos _ _ _ htt]
      constructor
      · simp
      · intro sv hsv hp2 c hc
        exact Option.noConfusion hc
  · rw [hres] at hsnap
    injection hsnap with hs2
    subst hs2
    constructor
    · simp
    · intro sv hsv hp2 c hc
      exact Option.noConfusion hc

/-- Claim C6: whenever cps and cpm are computed from the window, the
unrounded values satisfy cpm = cps × 60 exactly, and the emitted fields
are the unrounded window averages rounded only at emission (cps to 3
decimals, cpm to 1). -/
theorem C6_cpm_eq_cps_times_60 (st : Coordinator) (inp : CycleInput)
    (haux : auxOk st inp) (s : String) (n : ℤ)
    (hp : inp.pulse = ReadResult.ok s) (hne : s.isEmpty = false)
    (hn : pyInt s = some n) (snap : Snapshot)
    (hsnap : (updateData st inp).2 = Except.ok snap)
    (c : ℚ) (hc : snap.cpm = some c) :
    (∀ l : List Sample, cpmOf l = cpsOf l * 60) ∧
    snap.cps = some (roundTo (cpsOf (updateData st inp).1.samples) 3) ∧
    snap.cpm = some (roundTo (cpmOf (updateData st inp).1.samples) 1) := by
  have hiden : ∀ l : List Sample, cpmOf l = cpsOf l * 60 := by
    intro l
    rw [cpmOf, cpsOf, div_mul_eq_mul_div]
  refine ⟨hiden, ?_⟩
  rcases updateData_ok_cases st inp haux s n hp hne hn with
    ⟨pc, pt, hpc, hpt, hadm, hw, hres⟩ | ⟨hw, hres, hcase⟩
  · rw [hres] at hsnap
    injection hsnap with hs2
    subst hs2
    by_cases htt : 0 < totalTime (updateData st inp).1.samples
    · rw [snapFor_pos _ _ _ htt]
      exact ⟨rfl, rfl⟩
    · rw [snapFor_nonpos _ _ _ htt] at hc
      exact Option.noConfusion hc
  · rw [hres] at hsnap
    injection hsnap with hs2
    subst hs2
    exact Option.noConfusion hc

/-- The spec's end-to-end scenario evaluated: counts 1000 at t = 0 and
1010 at t = 2 with sensitivity 150 give cps 5, cpm 300, usvh 2. -/
theorem baseScenario_eval :
    updateData baseState baseInput =
      ({ baseState with
          update_counter := 1
          prev_pulsecount := some 1010
          prev_ts := some 2
          samples := [{ ts := 2, dp := 10, dt := 2 }] },
        Except.ok ⟨1010, some 5, some 300, some 2⟩) := by
  rw [updateData_eq_of_auxOk baseState baseInput (by decide),
    stagePrimary_ok_eq _ baseInput "1010" 1010 rfl (by decide) (by decide)]
  have hsa : (stageAux baseState baseInput).1 = { baseState with update_counter := 1 } := rfl
  rw [hsa, applySample_admits _ baseInput.now 1010 1000 0 rfl rfl (by norm_num [baseInput])]
  have hw : admitWindow ({ baseState with update_counter := 1 } : Coordinator).samples
      baseInput.now (1010 - 1000) (baseInput.now - 0) =
      [{ ts := 2, dp := 10, dt := 2 }] := by
    show admitWindow [] baseInput.now (1010 - 1000) (baseInput.now - 0) = _
    unfold admitWindow
    rw [List.nil_append,
      List.dropWhile_cons_of_neg (by simp only [decide_eq_true_eq, not_lt]; norm_num [baseInput])]
    norm_num [baseInput, Sample.mk.injEq]
  rw [hw]
  have hsnap : snapFor ({ baseState with update_counter := 1 } : Coordinator).sensitivity
      [({ ts := 2, dp := 10, dt := 2 } : Sample)] 1010 =
      (⟨1010, some 5, some 300, some 2⟩ : Snapshot) := by
    rw [snapFor_pos _ _ _ (by norm_num [totalTime])]
    show (⟨1010, some (roundTo (cpsOf [⟨2, 10, 2⟩]) 3), some (roundTo (cpmOf [⟨2, 10, 2⟩]) 1),
      if (0 : ℚ) < 150 then some (roundTo (cpmOf [⟨2, 10, 2⟩] / 150) 3) else none⟩ : Snapshot) = _
    rw [if_pos (by norm_num)]
    have h1 : cpsOf [({ ts := 2, dp := 10, dt := 2 } : Sample)] = 5 := by
      norm_num [cpsOf, totalPulses, totalTime]
    have h2 : cpmOf [({ ts := 2, dp := 10, dt := 2 } : Sample)] = 300 := by
      norm_num [cpmOf, totalPulses, totalTime]
    rw [h1, h2]
    have r1 : roundTo 5 3 = 5 := by norm_num [roundTo, rndHalfEven]
    have r2 : roundTo 300 1 = 300 := by norm_num [roundTo, rndHalfEven]
    have r3 : roundTo (300 / 150) 3 = 2 := by norm_num [roundTo, rndHalfEven]
    rw [r1, r2, r3]
  rw [hsnap]
  rfl

/-- Witness for C10 at a concrete rejected sample (dt = 0): snapshot
carries only the pulse count and the window is untouched. -/
theorem C10_snapshot_content_witness :
    (updateData baseState rejectInput).1.samples = baseState.samples ∧
    (updateData baseState rejectInput).2 = Except.ok ⟨1010, none, none, none⟩ := by
  have hsnap : (updateData baseState rejectInput).2 = Except.ok ⟨1010, none, none, none⟩ := by
    rw [updateData_eq_of_auxOk baseState rejectInput (by decide),
      stagePrimary_ok_eq _ rejectInput "1010" 1010 rfl (by decide) (by decide)]
    have hsa : (stageAux baseState rejectInput).1 =
        { baseState with update_counter := 1 } := rfl
    rw [hsa, applySample_reject _ rejectInput.now 1010 1000 0 rfl rfl
      (by norm_num [rejectInput])]
  obtain ⟨_, _, _, hrej⟩ :=
    C10_snapshot_content baseState rejectInput (by decide) "1010" 1010 rfl (by decide)
      (by decide) _ hsnap
  exact ⟨(hrej 1000 0 rfl rfl (by norm_num [rejectInput])).1, hsnap⟩

/-- Witness for C5 at the end-to-end scenario: usvh = 2 is present, with
positive sensitivity 150 and a computed cpm. -/
theorem C5_usvh_presence_witness :
    (⟨1010, some 5, some 300, some 2⟩ : Snapshot).usvh.isSome = true ↔
      ((∃ sv, (updateData baseState baseInput).1.sensitivity = some sv ∧ 0 < sv) ∧
        (⟨1010, some 5, some 300, some 2⟩ : Snapshot).cpm.isSome = true) :=
  (C5_usvh_presence baseState baseInput (by decide) "1010" 1010 rfl (by decide)
    (by decide) _ (by rw [baseScenario_eval])).1

/-- Witness for C6 at the end-to-end scenario: the emitted cpm 300 is
the rounded window average. -/
theorem C6_cpm_eq_cps_times_60_witness :
    (⟨1010, some 5, some 300, some 2⟩ : Snapshot).cpm =
      some (roundTo (cpmOf (updateData baseState baseInput).1.samples) 1) :=
  (C6_cpm_eq_cps_times_60 baseState baseInput (by decide) "1010" 1010 rfl (by decide)
    (by decide) _ (by rw [baseScenario_eval]) 300 rfl).2.2

theorem stageAux_battery_of_badfloat (st : Coordinator) (inp : CycleInput)
    (s : String) (hbatt : inp.batt = ReadResult.ok s) (hbad : pyFloat s = none) :
    (stageAux st inp).1.device_info.battery_voltage =
      st.device_info.battery_voltage := by
  simp only [stageAux]
  set st1 : Coordinator := { st with update_counter := st.update_counter + 1 } with hst1
  set r1 := if sensScheduled st then readSensitivity st1 inp.sens else (st1, none) with hr1
  have hb1 : r1.1.device_info = st.device_info := by
    rw [hr1]
    split
    · exact (readSensitivity_fields st1 inp.sens).1
    · rfl
  rcases hv : r1.2 with _ | e
  · simp only [hv]
    split
    · rw [hbatt]
      exact (readDeviceInfo_battery_of_badfloat r1.1 inp.devId s hbad).trans
        (by rw [hb1])
    · rw [hb1]
  · simp only [hv]
    rw [hb1]

theorem updateData_battery_of_badfloat (st : Coordinator) (inp : CycleInput)
    (s : String) (hbatt : inp.batt = ReadResult.ok s) (hbad : pyFloat s = none) :
    (updateData st inp).1.device_info.battery_voltage =
      st.device_info.battery_voltage := by
  have hb := stageAux_battery_of_badfloat st inp s hbatt hbad
  simp only [updateData]
  rcases hv : (stageAux st inp).2 with _ | e
  · simp only [hv]
    rw [(stagePrimary_pres (stageAux st inp).1 inp).2]
    exact hb
  · simp only [hv]
    exact hb

theorem stageAux_snd_devfail (st : Coordinator) (inp : CycleInput)
    (hd : devScheduled st) (hsens : sensScheduled st → inp.sens.isFail = false)
    (m : String) (hdev : inp.devId = ReadResult.fail m) :
    (stageAux st inp).2 = some m := by
  simp only [stageAux]
  set st1 : Coordinator := { st with update_counter := st.update_counter + 1 } with hst1
  set r1 := if sensScheduled st then readSensitivity st1 inp.sens else (st1, none) with hr1
  have hsnd : r1.2 = none := by
    rw [hr1]
    split
    · next hs => exact readSensitivity_snd_of_not_fail st1 inp.sens (hsens hs)
    · rfl
  simp only [hsnd]
  rw [if_pos hd, hdev]
  rfl

theorem stageAux_snd_battfail (st : Coordinator) (inp : CycleInput)
    (hd : devScheduled st) (hsens : sensScheduled st → inp.sens.isFail = false)
    (hdev : inp.devId.isFail = false) (m : String)
    (hbatt : inp.batt = ReadResult.fail m) :
    (stageAux st inp).2 = some m := by
  simp only [stageAux]
  set st1 : Coordinator := { st with update_counter := st.update_counter + 1 } with hst1
  set r1 := if sensScheduled st then readSensitivity st1 inp.sens else (st1, none) with hr1
  have hsnd : r1.2 = none := by
    rw [hr1]
    split
    · next hs => exact readSensitivity_snd_of_not_fail st1 inp.sens (hsens hs)
    · rfl
  simp only [hsnd]
  rw [if_pos hd]
  rcases hdv : inp.devId with raw | _ | e
  · rw [hbatt]
    rfl
  · rw [hbatt]
    rfl
  · rw [hdv] at hdev
    simp [ReadResult.isFail] at hdev

theorem updateData_snd_of_auxerr (st : Coordinator) (inp : CycleInput) (m : String)
    (h : (stageAux st inp).2 = some m) :
    (updateData st inp).2 = Except.error m := by
  simp only [updateData, h]

/-- Claim C3 (amended): auxiliary reads that return an empty or
malformed payload never fail the cycle — the prior sensitivity and
battery voltage are kept and the cycle proceeds to a snapshot — and a
missing, non-numeric or transport-failed primary read always fails the
cycle.  (As stated the claim is false: a transport failure during an
auxiliary read also fails the cycle, see the counterexample.) -/
theorem C3_aux_failures_tolerated (st : Coordinator) (inp : CycleInput)
    (haux : auxOk st inp) :
    (∀ s n, inp.pulse = ReadResult.ok s → s.isEmpty = false → pyInt s = some n →
      ∃ snap, (updateData st inp).2 = Except.ok snap) ∧
    (∀ s, inp.sens = ReadResult.ok s → pyFloat s = none →
      (updateData st inp).1.sensitivity = st.sensitivity) ∧
    (∀ s, inp.batt = ReadResult.ok s → pyFloat s = none →
      (updateData st inp).1.device_info.battery_voltage =
        st.device_info.battery_voltage) ∧
    (inp.pulse = ReadResult.empty →
      (updateData st inp).2 = Except.error "No response for tubePulseCount") ∧
    (∀ s, inp.pulse = ReadResult.ok s → s.isEmpty = false → pyInt s = none →
      (updateData st inp).2 = Except.error ("Invalid tubePulseCount: " ++ s)) ∧
    (∀ m, inp.pulse = ReadResult.fail m →
      (updateData st inp).2 = Except.error m) := by
  refine ⟨?_, ?_, ?_, ?_, ?_, ?_⟩
  · intro s n hp hne hn
    rw [updateData_eq_of_auxOk st inp haux, stagePrimary_ok_eq _ inp s n hp hne hn]
    exact applySample_isOk _ inp.now n
  · intro s hs hbad
    exact updateData_sensitivity_of_badfloat st inp s hs hbad
  · intro s hs hbad
    exact updateData_battery_of_badfloat st inp s hs hbad
  · intro hp
    rw [updateData_eq_of_auxOk st inp haux, stagePrimary_noresp _ inp hp]
  · intro s hp hne hn
    rw [updateData_eq_of_auxOk st inp haux, stagePrimary_badint _ inp s hp hne hn]
  · intro m hp
    exact updateData_transport_fail_primary st inp haux m hp

/-- Counterexample to claim C3 as stated: a transport failure of the
scheduled auxiliary sensitivity read fails the whole cycle even though
the primary read is healthy. -/
theorem C3_transport_fail_counterexample :
    sensFailInput.pulse = ReadResult.ok "100" ∧ pyInt "100" = some 100 ∧
    (updateData sensDueState sensFailInput).2 = Except.error "serial boom" := by
  exact ⟨rfl, by decide, rfl⟩

/-- Witness for C3 at a malformed scheduled sensitivity payload: the
cycle succeeds and the (absent) sensitivity stays as it was. -/
theorem C3_aux_failures_tolerated_witness :
    (updateData sensDueState sensBadInput).1.sensitivity = none ∧
    (∃ snap, (updateData sensDueState sensBadInput).2 = Except.ok snap) := by
  obtain ⟨hsucc, hsens, _, _, _, _⟩ :=
    C3_aux_failures_tolerated sensDueState sensBadInput (by decide)
  exact ⟨hsens "abc" rfl (by decide), hsucc "7" 7 rfl (by decide) (by decide)⟩

/-- Claim C4 (amended): a failing cycle — in particular a transport
failure at any read — yields PollFailed with no snapshot and leaves
prev_count, prev_ts and the window exactly as they were; the device
identity, however, may retain the update of a deviceId read that
succeeded earlier in the same failing cycle (see the counterexample). -/
theorem C4_transport_failure_frame (st : Coordinator) (inp : CycleInput) :
    (∀ e, (updateData st inp).2 = Except.error e →
      (updateData st inp).1.prev_pulsecount = st.prev_pulsecount ∧
      (updateData st inp).1.prev_ts = st.prev_ts ∧
      (updateData st inp).1.samples = st.samples) ∧
    (auxOk st inp → ∀ m, inp.pulse = ReadResult.fail m →
      (updateData st inp).2 = Except.error m) ∧
    (sensScheduled st → ∀ m, inp.sens = ReadResult.fail m →
      (updateData st inp).2 = Except.error m) ∧
    (devScheduled st → (sensScheduled st → inp.sens.isFail = false) →
      ∀ m, inp.devId = ReadResult.fail m →
        (updateData st inp).2 = Except.error m) ∧
    (devScheduled st → (sensScheduled st → inp.sens.isFail = false) →
      inp.devId.isFail = false → ∀ m, inp.batt = ReadResult.fail m →
        (updateData st inp).2 = Except.error m) := by
  refine ⟨?_, ?_, ?_, ?_, ?_⟩
  · intro e he
    exact updateData_error_frame st inp e he
  · intro haux m hp
    exact updateData_transport_fail_primary st inp haux m hp
  · intro hs m hf
    exact updateData_transport_fail_sens st inp hs m hf
  · intro hd hsens m hdev
    exact updateData_snd_of_auxerr st inp m (stageAux_snd_devfail st inp hd hsens m hdev)
  · intro hd hsens hdev m hbatt
    exact updateData_snd_of_auxerr st inp m
      (stageAux_snd_battfail st inp hd hsens hdev m hbatt)

/-- Counterexample to claim C4 as stated: after a successful deviceId
read, a transport failure on the battery read fails the cycle with the
device identity already updated — the prior DeviceIdentity is not
preserved. -/
theorem C4_identity_counterexample :
    (updateData identDueState identFailInput).2 = Except.error "boom" ∧
    identDueState.device_info.hardware_id = none ∧
    (updateData identDueState identFailInput).1.device_info.hardware_id =
      some "HW1" := by
  exact ⟨rfl, rfl, rfl⟩

/-- Witness for C4's frame property at the concrete failing cycle. -/
theorem C4_transport_failure_frame_witness :
    (updateData identDueState identFailInput).1.prev_pulsecount = none ∧
    (updateData identDueState identFailInput).1.samples = [] := by
  obtain ⟨hframe, _, _, _, _⟩ := C4_transport_failure_frame identDueState identFailInput
  obtain ⟨h1, _, h3⟩ := hframe "boom" rfl
  exact ⟨h1, h3⟩
